import Mathlib

/-!
Shallow embedding of the medistore e-commerce backend: product pricing,
cart checkout and buy-now stock accounting, OTP-gated registration and
password reset, and the shared response envelope. Definitions are
translated from `products/models.py`, `products/views.py`,
`authentication/models.py`, `authentication/views.py` and
`utils/views.py`; theorems check the claims of the specification against them.
-/

namespace Medistore

/-- Half-even rounding of a rational to an integer, matching the Python
builtin `round` applied to exact `Decimal` values (bankers rounding). -/
def roundHalfEven (q : ℚ) : ℤ :=
  if q - (⌊q⌋ : ℚ) < 1/2 then ⌊q⌋
  else if 1/2 < q - (⌊q⌋ : ℚ) then ⌊q⌋ + 1
  else if ⌊q⌋ % 2 = 0 then ⌊q⌋ else ⌊q⌋ + 1

/-- Rounding to 2 decimal places, `round(x, 2)` as used by
`Product.discounted_price`. -/
def round2 (q : ℚ) : ℚ := (roundHalfEven (q * 100) : ℚ) / 100

/-- A row of `products.models.Product`; only the fields the claims touch.
`price` and `discount` are `DecimalField`s (exact decimals, embedded as
rationals; the field declarations place no lower bound on `discount`),
`quantity` is a `PositiveIntegerField` (a nonnegative integer). -/
structure Product where
  pid : Nat
  name : String
  sku : String
  price : ℚ
  discount : ℚ
  quantity : Nat
  isActive : Bool
deriving Repr, DecidableEq

/-- Model of `Product.discounted_price` from `products/models.py`:
`round(price - price * discount / 100, 2)` when `discount > 0`,
else `price` unchanged. -/
def Product.discountedPrice (p : Product) : ℚ :=
  if 0 < p.discount then round2 (p.price - p.price * p.discount / 100)
  else p.price

/-- Model of `Product.is_in_stock` from `products/models.py`:
`quantity > 0`. -/
def Product.isInStock (p : Product) : Bool :=
  decide (0 < p.quantity)

/-- A row of `products.models.CartItem` for the cart of one user: the
`(cart, product)` pair is unique, so a line is a product reference plus
a quantity (`PositiveIntegerField`). -/
structure CartLine where
  productId : Nat
  quantity : Nat
deriving Repr, DecidableEq

/-- An `products.models.OrderItem` row: snapshots of the product name,
SKU and discounted unit price taken at order time.  `quantity` is an
`Int` because `BuyNowAPIView.post` stores whatever `int(...)` parsed. -/
structure OrderItem where
  productId : Option Nat
  productName : String
  productSku : String
  quantity : Int
  unitPrice : ℚ
deriving Repr, DecidableEq

/-- The shipping fields accepted by `OrderCreateSerializer`. -/
structure Shipping where
  fullName : String
  phone : String
  address : String
  city : String
  postalCode : String
deriving Repr, DecidableEq

/-- An `products.models.Order` row together with its `OrderItem` rows;
only the fields the claims touch. -/
structure Order where
  totalAmount : ℚ
  shipping : Shipping
  items : List OrderItem
deriving Repr, DecidableEq

/-- The store-side database state seen by one authenticated user:
the product table, the cart of the user (`none` when no `Cart` row
exists, `some lines` otherwise) and the orders of the user. -/
structure StoreState where
  products : List Product
  cart : Option (List CartLine)
  orders : List Order
deriving Repr, DecidableEq

/-- Foreign-key lookup of a product row by primary key. -/
def findProduct (ps : List Product) (pid : Nat) : Option Product :=
  ps.find? (fun p => p.pid == pid)

/-- Row update of every product with the given primary key. -/
def updateProduct (ps : List Product) (pid : Nat) (f : Product → Product) :
    List Product :=
  ps.map (fun p => if p.pid == pid then f p else p)

/-- Resolution of the `item.product` foreign key of each cart line, as by
`prefetch_related("items__product")` before the checkout loop runs;
`none` signals a dangling reference, which the foreign keys of the schema
rule out. -/
def resolveLines (ps : List Product) : List CartLine →
    Option (List (CartLine × Product))
  | [] => some []
  | l :: rest =>
    match findProduct ps l.productId, resolveLines ps rest with
    | some p, some lps => some ((l, p) :: lps)
    | _, _ => none

/-- The stock-validation loop of `CartCheckoutAPIView.post`: the first
line with `item.quantity > item.product.quantity`, if any. -/
def firstShortLine (lps : List (CartLine × Product)) :
    Option (CartLine × Product) :=
  lps.find? (fun lp => lp.2.quantity < lp.1.quantity)

/-- The insufficient-stock message of `CartCheckoutAPIView.post`. -/
def checkoutShortMsg (p : Product) : String :=
  "\x27" ++ p.name ++ "\x27 only has " ++ toString p.quantity ++ " items left."

/-- Model of `CartItem.subtotal`: `product.discounted_price * quantity`. -/
def lineSubtotal (lp : CartLine × Product) : ℚ :=
  lp.2.discountedPrice * (lp.1.quantity : ℚ)

/-- Model of `Cart.total_price`: sum of the item subtotals. -/
def cartTotalPrice (lps : List (CartLine × Product)) : ℚ :=
  (lps.map lineSubtotal).sum

/-- The `OrderItem` built for one cart line by `CartCheckoutAPIView.post`. -/
def snapshotItem (lp : CartLine × Product) : OrderItem :=
  { productId := some lp.2.pid
    productName := lp.2.name
    productSku := lp.2.sku
    quantity := (lp.1.quantity : Int)
    unitPrice := lp.2.discountedPrice }

/-- The stock decrements performed by the checkout loop:
`item.product.quantity -= item.quantity` row by row. -/
def decrementStock (lps : List (CartLine × Product)) (ps : List Product) :
    List Product :=
  lps.foldl
    (fun acc lp =>
      updateProduct acc lp.2.pid
        (fun p => { p with quantity := p.quantity - lp.1.quantity }))
    ps

/-- Outcome of an order-placing endpoint: the database state after the
request and either the created order or the error message returned. -/
structure OrderOutcome where
  state : StoreState
  response : Except String Order
deriving Repr

/-- Model of `CartCheckoutAPIView.post` from `products/views.py`.
Here `bodyValid`
stands for `OrderCreateSerializer(data=request.data).is_valid()`; the
checks run in source order: empty-or-absent cart, body validation,
per-line stock validation, then order creation, item snapshots, stock
decrements and cart clearing. -/
def checkout (st : StoreState) (bodyValid : Bool) (ship : Shipping) :
    OrderOutcome :=
  match st.cart with
  | none => ⟨st, .error "Your cart is empty."⟩
  | some lines =>
    if lines.isEmpty then ⟨st, .error "Your cart is empty."⟩
    else if !bodyValid then ⟨st, .error "Validation error."⟩
    else
      match resolveLines st.products lines with
      | none => ⟨st, .error "Internal server error."⟩
      | some lps =>
        match firstShortLine lps with
        | some lp => ⟨st, .error (checkoutShortMsg lp.2)⟩
        | none =>
          let order : Order :=
            { totalAmount := cartTotalPrice lps
              shipping := ship
              items := lps.map snapshotItem }
          ⟨⟨decrementStock lps st.products, some [], st.orders ++ [order]⟩,
            .ok order⟩

/-- Lookup `Product.objects.filter(id=product_id, is_active=True).first()` from
`BuyNowAPIView.post`. -/
def buyNowLookup (ps : List Product) (pid : Nat) : Option Product :=
  (ps.filter (fun p => p.pid == pid && p.isActive)).head?

/-- The insufficient-stock message of `BuyNowAPIView.post`. -/
def buyNowShortMsg (p : Product) : String :=
  "Only " ++ toString p.quantity ++ " items available."

/-- Model of `BuyNowAPIView.post` from `products/views.py`.  Here `quantity` is the
already-parsed `int(request.data.get("quantity", 1))`; checks run in
source order: missing `product_id`, product lookup, stock check
(`not product.is_in_stock or quantity > product.quantity`), body
validation, then order creation, one item row, and the stock decrement. -/
def buyNow (st : StoreState) (productId : Option Nat) (quantity : Int)
    (bodyValid : Bool) (ship : Shipping) : OrderOutcome :=
  match productId with
  | none => ⟨st, .error "product_id is required."⟩
  | some pid =>
    match buyNowLookup st.products pid with
    | none => ⟨st, .error "Product not found."⟩
    | some p =>
      if !p.isInStock || (p.quantity : Int) < quantity then
        ⟨st, .error (buyNowShortMsg p)⟩
      else if !bodyValid then ⟨st, .error "Validation error."⟩
      else
        let order : Order :=
          { totalAmount := p.discountedPrice * (quantity : ℚ)
            shipping := ship
            items := [{ productId := some p.pid
                        productName := p.name
                        productSku := p.sku
                        quantity := quantity
                        unitPrice := p.discountedPrice }] }
        ⟨⟨updateProduct st.products p.pid
            (fun q => { q with quantity := ((q.quantity : Int) - quantity).toNat }),
          st.cart, st.orders ++ [order]⟩,
          .ok order⟩

/-- A row of `authentication.models.PendingRegistration`: unique email,
candidate profile fields, plaintext password, one-time code and expiry.
Timestamps are seconds. -/
structure PendingReg where
  email : String
  firstName : String
  lastName : String
  password : String
  phone : Option String
  address : Option String
  otp : String
  otpExpiresAt : Nat
deriving Repr, DecidableEq

/-- A row of `authentication.models.Users`; only the fields the claims
touch.  `otp` is a nullable `CharField` (a blank string is storable), and
`otpExpired` the nullable expiry timestamp. -/
structure UserRec where
  email : String
  firstName : String
  lastName : String
  passwordHash : String
  phone : Option String
  address : Option String
  otp : Option String
  otpExpired : Option Nat
  isActive : Bool
deriving Repr, DecidableEq

/-- The two authentication tables. -/
structure AuthState where
  pendings : List PendingReg
  users : List UserRec
deriving Repr, DecidableEq

/-- The Django `set_password` hasher, abstracted as an injective tag. -/
def hashPassword (s : String) : String := "pbkdf2:" ++ s

/-- Python truthiness of the nullable `otp` field: `None` and the empty
string are falsy, any other string is truthy. -/
def otpTruthy : Option String → Bool
  | none => false
  | some s => s != ""

/-- Model of `Users.save` from `authentication/models.py`: whenever the saved row
has a truthy `otp`, its `otp_expired` is reset to now + 5 minutes. -/
def usersSave (now : Nat) (u : UserRec) : UserRec :=
  if otpTruthy u.otp then { u with otpExpired := some (now + 300) } else u

/-- Lookup `PendingRegistration.objects.get(email=email)` (unique email). -/
def findPending (st : AuthState) (email : String) : Option PendingReg :=
  st.pendings.find? (fun p => p.email == email)

/-- Lookup `Users.objects.get(email=email)` (unique email). -/
def findUser (st : AuthState) (email : String) : Option UserRec :=
  st.users.find? (fun u => u.email == email)

/-- Deletion of the pending-registration row for an email. -/
def deletePending (ps : List PendingReg) (email : String) : List PendingReg :=
  ps.filter (fun p => p.email != email)

/-- Row update of every user with the given (unique) email. -/
def updateUser (us : List UserRec) (email : String) (f : UserRec → UserRec) :
    List UserRec :=
  us.map (fun u => if u.email == email then f u else u)

/-- Result of `verify_registration_otp`: invalid code, expired code, a
completed registration (tokens are issued exactly then), a verified
password-reset code, or no matching record. -/
inductive VerifyResult where
  | invalidCode
  | expired
  | registered (user : UserRec) (tokensIssued : Bool)
  | resetVerified
  | notFound
deriving Repr, DecidableEq

/-- Truth on the two success shapes of `verify_registration_otp`. -/
def VerifyResult.isSuccess : VerifyResult → Bool
  | .registered _ _ => true
  | .resetVerified => true
  | _ => false

/-- Model of `verify_registration_otp` from `authentication/views.py`: the pending
registration for the email is checked first (code mismatch, then expiry
with row deletion, then user creation with hashed password, pending
deletion and token issuance); otherwise the user row is checked (code
mismatch, then falsy-or-passed expiry, then the code and expiry are
cleared and saved). -/
def verifyOtp (st : AuthState) (now : Nat) (email otp : String) :
    AuthState × VerifyResult :=
  match findPending st email with
  | some pending =>
    if pending.otp != otp then (st, .invalidCode)
    else if pending.otpExpiresAt < now then
      ({ st with pendings := deletePending st.pendings email }, .expired)
    else
      let newUser : UserRec :=
        { email := pending.email
          firstName := pending.firstName
          lastName := pending.lastName
          passwordHash := hashPassword pending.password
          phone := pending.phone
          address := pending.address
          otp := none
          otpExpired := none
          isActive := true }
      (⟨deletePending st.pendings email, st.users ++ [newUser]⟩,
        .registered newUser true)
  | none =>
    match findUser st email with
    | none => (st, .notFound)
    | some u =>
      if u.otp != some otp then (st, .invalidCode)
      else
        match u.otpExpired with
        | none => (st, .expired)
        | some t =>
          if t < now then (st, .expired)
          else
            ({ st with users :=
                (updateUser st.users email
                  (fun v => usersSave now { v with otp := none, otpExpired := none })) },
              .resetVerified)

/-- Result of `resend_otp`. -/
inductive ResendResult where
  | ok
  | notFound
deriving Repr, DecidableEq

/-- Model of `resend_otp` from `authentication/views.py`: the pending registration
is looked up first and gets the fresh code and a fresh expiry; otherwise
the user row gets the fresh code, and `Users.save` sets the fresh expiry;
404 when neither exists.  `freshOtp` stands for the generated
`str(random.randint(100000, 999999))`. -/
def resendOtp (st : AuthState) (now : Nat) (email freshOtp : String) :
    AuthState × ResendResult :=
  match findPending st email with
  | some _ =>
    ({ st with pendings :=
        st.pendings.map (fun p =>
          if p.email == email then
            { p with otp := freshOtp, otpExpiresAt := now + 300 }
          else p) },
      .ok)
  | none =>
    match findUser st email with
    | some _ =>
      ({ st with users :=
          (updateUser st.users email
            (fun u => usersSave now { u with otp := some freshOtp })) },
        .ok)
    | none => (st, .notFound)

/-- Model of `registration` from `authentication/views.py`:
`PendingRegistration.objects.update_or_create(email=email, defaults=...)`
— the pending row for the email is replaced if present, created
otherwise; no user row is touched.  `freshOtp` stands for the generated
code. -/
def registration (st : AuthState) (now : Nat)
    (email firstName lastName password : String)
    (phone address : Option String) (freshOtp : String) : AuthState :=
  let fresh : PendingReg :=
    { email := email
      firstName := firstName
      lastName := lastName
      password := password
      phone := phone
      address := address
      otp := freshOtp
      otpExpiresAt := now + 300 }
  { st with pendings :=
      if (findPending st email).isSome then
        st.pendings.map (fun p => if p.email == email then fresh else p)
      else st.pendings ++ [fresh] }

/-- Result of `reset_password`. -/
inductive ResetResult where
  | ok
  | verificationRequired
  | userNotFound
deriving Repr, DecidableEq

/-- Model of `reset_password` from `authentication/views.py`: 404 when the email
matches no user, a verification-required error when the stored `otp` is
not null, otherwise the password hash is replaced and the row saved. -/
def resetPassword (st : AuthState) (now : Nat) (email newPassword : String) :
    AuthState × ResetResult :=
  match findUser st email with
  | none => (st, .userNotFound)
  | some u =>
    if u.otp.isSome then (st, .verificationRequired)
    else
      ({ st with users :=
          (updateUser st.users email
            (fun v => usersSave now { v with passwordHash := hashPassword newPassword })) },
        .ok)

/-- Model of `change_password` from `authentication/views.py`: the authenticated
user hash is replaced and the row saved through `Users.save`. -/
def changePassword (st : AuthState) (now : Nat) (email newPassword : String) :
    AuthState :=
  { st with users :=
      (updateUser st.users email
        (fun v => usersSave now { v with passwordHash := hashPassword newPassword })) }

/-- The profile fields `update_profile` may patch. -/
structure ProfilePatch where
  firstName : Option String
  lastName : Option String
  phone : Option String
  address : Option String
deriving Repr, DecidableEq

/-- Application of an in-place profile patch to a user row. -/
def applyPatch (pt : ProfilePatch) (u : UserRec) : UserRec :=
  { u with
    firstName := pt.firstName.getD u.firstName
    lastName := pt.lastName.getD u.lastName
    phone := pt.phone <|> u.phone
    address := pt.address <|> u.address }

/-- Model of `update_profile` from `authentication/views.py`: the serializer saves
the patched row, which goes through `Users.save`. -/
def updateProfile (st : AuthState) (now : Nat) (email : String)
    (pt : ProfilePatch) : AuthState :=
  { st with users :=
      updateUser st.users email (fun v => usersSave now (applyPatch pt v)) }

/-- A JSON value, for modelling HTTP response bodies. -/
inductive JVal where
  | s (v : String)
  | b (v : Bool)
  | n (v : Int)
  | null
  | obj (fields : List (String × JVal))

/-- A JSON object body as an ordered field list (a Python dict). -/
abbrev JBody := List (String × JVal)

/-- Assignment `meta[k] = v` on a Python dict: replace the value if the key exists,
append the pair otherwise. -/
def setKey (m : JBody) (k : String) (v : JVal) : JBody :=
  if m.any (fun kv => kv.1 == k) then
    m.map (fun kv => if kv.1 == k then (k, v) else kv)
  else m ++ [(k, v)]

/-- Model of `APIResponse.success_response` from `utils/views.py`: the
caller-supplied `meta` gets a `timestamp`, and the body is the five-field envelope with
`success = true` and `errors = null`. -/
def successResponseBody (data : JVal) (message : String) (meta : JBody)
    (now : Int) : JBody :=
  [("success", .b true),
   ("message", .s message),
   ("data", data),
   ("errors", .null),
   ("meta", .obj (setKey meta "timestamp" (.n now)))]

/-- Model of `APIResponse.error_response` from `utils/views.py`: the
caller-supplied `meta` gets a `timestamp`, and the body is the five-field envelope with
`success = false` and `data = null`. -/
def errorResponseBody (errors : JVal) (message : String) (meta : JBody)
    (now : Int) : JBody :=
  [("success", .b false),
   ("message", .s message),
   ("data", .null),
   ("errors", errors),
   ("meta", .obj (setKey meta "timestamp" (.n now)))]

/-- The field names of the uniform envelope, in order. -/
def envelopeKeys : List String :=
  ["success", "message", "data", "errors", "meta"]

/-- The success body returned by `registration` in
`authentication/views.py` (lines 57-61): a hand-built
`{success, message, email}` dict, not the `APIResponse` envelope. -/
def registrationSuccessBody (email : String) : JBody :=
  [("success", .b true),
   ("message", .s ("OTP sent to " ++ email)),
   ("email", .s email)]

/-! ### Spec-side descriptions used to state the claims

These follow the wording of the specification (totals, snapshots and stock
decrements described per cart line) and are compared with the
implementation functions above. -/

/-- The claimed order total: the sum over cart lines of discounted price
times quantity. -/
def claimTotal (ps : List Product) (lines : List CartLine) : ℚ :=
  (lines.map (fun l =>
    match findProduct ps l.productId with
    | some p => p.discountedPrice * (l.quantity : ℚ)
    | none => 0)).sum

/-- The claimed per-line snapshot: product name, SKU and discounted unit
price copied from the referenced product. -/
def claimSnapshot (ps : List Product) (l : CartLine) : OrderItem :=
  match findProduct ps l.productId with
  | some p =>
    { productId := some p.pid
      productName := p.name
      productSku := p.sku
      quantity := (l.quantity : Int)
      unitPrice := p.discountedPrice }
  | none =>
    { productId := none, productName := "", productSku := "",
      quantity := 0, unitPrice := 0 }

/-- The claimed stock effect: every product referenced by a cart line has
its stock decremented by the quantity of that line; the rest unchanged. -/
def claimDecrement (lines : List CartLine) (ps : List Product) : List Product :=
  ps.map (fun p =>
    match lines.find? (fun l => l.productId == p.pid) with
    | some l => { p with quantity := p.quantity - l.quantity }
    | none => p)

/-- The claimed created order: total as in `claimTotal`, one snapshot per
cart line. -/
def claimOrder (ps : List Product) (lines : List CartLine)
    (ship : Shipping) : Order :=
  { totalAmount := claimTotal ps lines
    shipping := ship
    items := lines.map (claimSnapshot ps) }

/-- A product with a 25% discount, for evaluating the C6 theorem. -/
def discount25Product : Product :=
  { pid := 6, name := "Syrup", sku := "SY-6", price := 200, discount := 25,
    quantity := 0, isActive := true }

/-- A product with a negative discount, storable because the `discount`
column carries no lower-bound validator. -/
def negDiscountProduct : Product :=
  { pid := 9, name := "Balm", sku := "B-9", price := 100, discount := -10,
    quantity := 5, isActive := true }

/-- A short-stocked concrete product, cart and request for settling the
message-shape claims. -/
def shortStockProduct : Product :=
  { pid := 3, name := "Panadol", sku := "PA-3", price := 50, discount := 0,
    quantity := 2, isActive := true }

/-- A store holding only the short-stocked product. -/
def shortStockStore : StoreState :=
  { products := [shortStockProduct], cart := none, orders := [] }

/-- A concrete valid shipping body. -/
def wShip : Shipping :=
  { fullName := "N N", phone := "0", address := "a", city := "c",
    postalCode := "z" }

/-- A stale pending registration whose stored code is `123456`. -/
def pendingStale : PendingReg :=
  { email := "a@x.com", firstName := "A", lastName := "B", password := "pw",
    phone := none, address := none, otp := "123456", otpExpiresAt := 100 }

/-- A user row with a cleared code and a known hash, for evaluating the
reset-password theorems. -/
def clearedUser : UserRec :=
  { email := "u@x.com", firstName := "U", lastName := "X",
    passwordHash := "pbkdf2:old", phone := none, address := none,
    otp := none, otpExpired := none, isActive := true }

/-- A user row holding a blank (non-null but falsy) code. -/
def blankOtpUser : UserRec :=
  { email := "e@x.com", firstName := "E", lastName := "X",
    passwordHash := "h", phone := none, address := none,
    otp := some "", otpExpired := some 100, isActive := true }

/-- A user row with a pending six-digit reset code. -/
def pendingOtpUser : UserRec :=
  { email := "p@x.com", firstName := "P", lastName := "X",
    passwordHash := "h0", phone := none, address := none,
    otp := some "555555", otpExpired := some 400, isActive := true }

/-- A concrete two-line store for evaluating the checkout theorem. -/
def wStoreC1 : StoreState :=
  { products := [{ pid := 1, name := "Apple", sku := "AP-1", price := 10,
                   discount := 0, quantity := 5, isActive := true },
                 { pid := 2, name := "Pear", sku := "PE-2", price := 20,
                   discount := 0, quantity := 3, isActive := true }],
    cart := some [{ productId := 1, quantity := 2 },
                  { productId := 2, quantity := 1 }],
    orders := [] }

/-- The resolved line-product pairs of `wStoreC1`. -/
def wLpsC1 : List (CartLine × Product) :=
  [({ productId := 1, quantity := 2 },
    { pid := 1, name := "Apple", sku := "AP-1", price := 10, discount := 0,
      quantity := 5, isActive := true }),
   ({ productId := 2, quantity := 1 },
    { pid := 2, name := "Pear", sku := "PE-2", price := 20, discount := 0,
      quantity := 3, isActive := true })]

/-! ### Helper lemmas -/

/-- A successful product lookup returns a row with the looked-up key. -/
theorem findProduct_pid {ps : List Product} {pid : Nat} {p : Product}
    (h : findProduct ps pid = some p) : p.pid = pid := by
  have := List.find?_some h
  simpa using this

/-- Lemma: `find?` commutes with a map that rewrites exactly the matching
elements to matching elements. -/
theorem find?_map_ite {α : Type} (q : α → Bool) (f : α → α)
    (hf : ∀ a, q a = true → q (f a) = true) :
    ∀ l : List α,
      (l.map (fun a => if q a then f a else a)).find? q =
        (l.find? q).map (fun a => if q a then f a else a) := by
  intro l
  induction l with
  | nil => rfl
  | cons a t ih =>
    by_cases ha : q a = true
    · rw [List.map_cons, if_pos ha, List.find?_cons_of_pos _ (hf a ha),
        List.find?_cons_of_pos _ ha]
      simp [if_pos ha]
    · have ha' : ¬ q a = true := ha
      rw [List.map_cons, if_neg ha', List.find?_cons_of_neg _ ha',
        List.find?_cons_of_neg _ ha', ih]

/-- Resolving the cart foreign keys keeps the lines and finds the
product of each line. -/
theorem resolveLines_spec :
    ∀ {lines : List CartLine} {lps : List (CartLine × Product)}
      (ps : List Product),
      resolveLines ps lines = some lps →
      lps.map Prod.fst = lines ∧
        ∀ lp ∈ lps, findProduct ps lp.1.productId = some lp.2 := by
  intro lines
  induction lines with
  | nil =>
    intro lps ps h
    simp only [resolveLines, Option.some.injEq] at h
    subst h
    exact ⟨rfl, by simp⟩
  | cons l rest ih =>
    intro lps ps h
    simp only [resolveLines] at h
    cases hf : findProduct ps l.productId with
    | none => rw [hf] at h; cases h
    | some p =>
      rw [hf] at h
      cases hr : resolveLines ps rest with
      | none => rw [hr] at h; cases h
      | some lps' =>
        rw [hr] at h
        simp only [Option.some.injEq] at h
        subst h
        obtain ⟨h1, h2⟩ := ih ps hr
        refine ⟨by simp [h1], ?_⟩
        intro lp hlp
        rcases List.mem_cons.mp hlp with heq | hmem
        · subst heq; exact hf
        · exact h2 lp hmem

/-- The implemented total and snapshots agree with the per-line
spec-side descriptions. -/
theorem resolve_total_snapshot :
    ∀ {lines : List CartLine} {lps : List (CartLine × Product)}
      (ps : List Product),
      resolveLines ps lines = some lps →
      cartTotalPrice lps = claimTotal ps lines ∧
        lps.map snapshotItem = lines.map (claimSnapshot ps) := by
  intro lines
  induction lines with
  | nil =>
    intro lps ps h
    simp only [resolveLines, Option.some.injEq] at h
    subst h
    exact ⟨rfl, rfl⟩
  | cons l rest ih =>
    intro lps ps h
    simp only [resolveLines] at h
    cases hf : findProduct ps l.productId with
    | none => rw [hf] at h; cases h
    | some p =>
      rw [hf] at h
      cases hr : resolveLines ps rest with
      | none => rw [hr] at h; cases h
      | some lps' =>
        rw [hr] at h
        simp only [Option.some.injEq] at h
        subst h
        obtain ⟨h1, h2⟩ := ih ps hr
        constructor
        · have e1 : cartTotalPrice ((l, p) :: lps') =
              lineSubtotal (l, p) + cartTotalPrice lps' := by
            simp [cartTotalPrice]
          have e2 : claimTotal ps (l :: rest) =
              p.discountedPrice * (l.quantity : ℚ) + claimTotal ps rest := by
            simp [claimTotal, hf]
          rw [e1, h1, e2]
          rfl
        · simp only [List.map_cons, h2]
          have e3 : claimSnapshot ps l =
              { productId := some p.pid, productName := p.name,
                productSku := p.sku, quantity := (l.quantity : Int),
                unitPrice := p.discountedPrice } := by
            simp [claimSnapshot, hf]
          rw [e3]
          rfl

/-- The checkout decrement loop, re-keyed by the cart lines. -/
theorem decrementStock_by_lines :
    ∀ (lps : List (CartLine × Product)) (ps : List Product),
      (∀ lp ∈ lps, lp.2.pid = lp.1.productId) →
      decrementStock lps ps =
        (lps.map Prod.fst).foldl
          (fun acc l => updateProduct acc l.productId
            (fun p => { p with quantity := p.quantity - l.quantity })) ps := by
  intro lps
  induction lps with
  | nil => intro ps _; rfl
  | cons lp t ih =>
    intro ps hpid
    have hhead : lp.2.pid = lp.1.productId := hpid lp (List.mem_cons_self lp t)
    simp only [decrementStock, List.foldl_cons, List.map_cons] at *
    rw [hhead]
    exact ih _ (fun x hx => hpid x (List.mem_cons_of_mem lp hx))

/-- Folding per-line stock updates equals the one-pass spec-side
description when no two cart lines reference the same product. -/
theorem foldl_update_eq_claimDecrement :
    ∀ (lines : List CartLine) (ps : List Product),
      List.Pairwise (fun a b => a.productId ≠ b.productId) lines →
      lines.foldl
        (fun acc l => updateProduct acc l.productId
          (fun p => { p with quantity := p.quantity - l.quantity })) ps =
      claimDecrement lines ps := by
  intro lines
  induction lines with
  | nil =>
    intro ps _
    simp [claimDecrement, List.find?]
  | cons l rest ih =>
    intro ps hpw
    obtain ⟨hhead, hrest⟩ := List.pairwise_cons.mp hpw
    rw [List.foldl_cons, ih _ hrest]
    unfold claimDecrement updateProduct
    rw [List.map_map]
    apply List.map_congr_left
    intro p _
    by_cases hpl : l.productId = p.pid
    · have hb : (l.productId == p.pid) = true := by simp [hpl]
      have hb' : (p.pid == l.productId) = true := by simp [hpl]
      have hnone : rest.find? (fun l2 => l2.productId == p.pid) = none := by
        rw [List.find?_eq_none]
        intro l2 hl2
        simp only [beq_iff_eq]
        exact fun hcon => hhead l2 hl2 (hpl.trans hcon.symm)
      simp only [Function.comp_apply, hb', if_pos, List.find?_cons, hb, hnone]
    · have hb : (l.productId == p.pid) = false := by
        simp only [beq_eq_false_iff_ne, ne_eq]
        exact hpl
      have hb' : (p.pid == l.productId) = false := by
        simp only [beq_eq_false_iff_ne, ne_eq]
        exact fun h => hpl h.symm
      simp only [Function.comp_apply, hb', Bool.false_eq_true, if_false,
        List.find?_cons, hb]

/-- Setting a key on a Python dict leaves the key present. -/
theorem mem_keys_setKey (m : JBody) (k : String) (v : JVal) :
    k ∈ (setKey m k v).map Prod.fst := by
  unfold setKey
  by_cases h : m.any (fun kv => kv.1 == k) = true
  · rw [if_pos h]
    obtain ⟨kv, hmem, hk⟩ := List.any_eq_true.mp h
    exact List.mem_map.mpr
      ⟨(k, v), List.mem_map.mpr ⟨kv, hmem, by rw [if_pos hk]⟩, rfl⟩
  · rw [if_neg h]
    simp

/-- Saving through `Users.save` never changes the email of the row. -/
theorem usersSave_email (now : Nat) (u : UserRec) :
    (usersSave now u).email = u.email := by
  unfold usersSave; split <;> rfl

/-- Saving through `Users.save` never changes the code of the row. -/
theorem usersSave_otp (now : Nat) (u : UserRec) :
    (usersSave now u).otp = u.otp := by
  unfold usersSave; split <;> rfl

/-- Lemma: `find?` on a matching-elements-rewriting map, when the original list
has a match. -/
theorem find?_update_of_found {α : Type} (q : α → Bool) (f : α → α)
    (hf : ∀ a, q a = true → q (f a) = true) {l : List α} {a : α}
    (h : l.find? q = some a) :
    (l.map (fun x => if q x then f x else x)).find? q = some (f a) := by
  rw [find?_map_ite q f hf l, h]
  simp [if_pos (List.find?_some h)]

/-! ### Claim theorems -/

/-- C6 (amended): for every product, the derived discounted price equals
`price × (1 − discount/100)` rounded half-even to 2 decimal places when
the discount is positive, and equals the list price whenever the
discount is not positive (in particular when it is 0); the in-stock flag
is true exactly when the quantity on hand is greater than 0. -/
theorem discounted_price_formula (p : Product) :
    (0 < p.discount →
      p.discountedPrice = round2 (p.price * (1 - p.discount / 100))) ∧
    (p.discount ≤ 0 → p.discountedPrice = p.price) ∧
    (p.isInStock = true ↔ 0 < p.quantity) := by
  refine ⟨fun h => ?_, fun h => ?_, ?_⟩
  · rw [Product.discountedPrice, if_pos h]
    congr 1
    ring
  · rw [Product.discountedPrice, if_neg (not_lt.mpr h)]
  · simp [Product.isInStock]

/-- C6 witness: the amended discounted-price formula evaluated at a
concrete 25%-discount product. -/
theorem discounted_price_formula_witness :
    0 < discount25Product.discount ∧
    discount25Product.discountedPrice =
      round2 (discount25Product.price * (1 - discount25Product.discount / 100)) :=
  ⟨by norm_num [discount25Product],
   (discounted_price_formula discount25Product).1 (by norm_num [discount25Product])⟩

/-- C6 counterexample: at a product with discount −10 the claimed
"otherwise" branch fails — the code returns the list price (100), not
the rounded formula value (110). -/
theorem discounted_price_negative_discount_counterexample :
    negDiscountProduct.discount ≠ 0 ∧
    negDiscountProduct.discountedPrice ≠
      round2 (negDiscountProduct.price -
        negDiscountProduct.price * negDiscountProduct.discount / 100) := by
  constructor
  · norm_num [negDiscountProduct]
  · have h1 : negDiscountProduct.discountedPrice = 100 := by
      norm_num [negDiscountProduct, Product.discountedPrice]
    have h2 : round2 (negDiscountProduct.price -
        negDiscountProduct.price * negDiscountProduct.discount / 100) = 110 := by
      norm_num [negDiscountProduct, round2, roundHalfEven]
    rw [h1, h2]
    norm_num

/-- C7 (amended): every response built through the shared
`APIResponse.success_response` / `error_response` helpers — the ones all
product, cart and order endpoints return through — is the uniform
envelope with exactly the fields success, message, data, errors and
meta, where meta contains a timestamp and success is true on success
bodies and false on error bodies.  The authentication endpoints build
their bodies by hand and do not follow the envelope. -/
theorem api_response_envelope_shape (data errors : JVal) (message : String)
    (meta : JBody) (now : Int) :
    (successResponseBody data message meta now).map Prod.fst = envelopeKeys ∧
    (errorResponseBody errors message meta now).map Prod.fst = envelopeKeys ∧
    List.lookup "success" (successResponseBody data message meta now) =
      some (.b true) ∧
    List.lookup "success" (errorResponseBody errors message meta now) =
      some (.b false) ∧
    "timestamp" ∈ (setKey meta "timestamp" (.n now)).map Prod.fst :=
  ⟨rfl, rfl, rfl, rfl, mem_keys_setKey meta "timestamp" (.n now)⟩

/-- C7 counterexample: the success body of the `registration` endpoint
has fields success, message and email — not the claimed envelope; it
lacks data, errors and meta (and hence any meta timestamp). -/
theorem registration_body_not_envelope_counterexample :
    (registrationSuccessBody "user@example.com").map Prod.fst ≠ envelopeKeys ∧
    "meta" ∉ (registrationSuccessBody "user@example.com").map Prod.fst ∧
    "data" ∉ (registrationSuccessBody "user@example.com").map Prod.fst ∧
    "errors" ∉ (registrationSuccessBody "user@example.com").map Prod.fst := by
  refine ⟨?_, ?_, ?_, ?_⟩ <;> decide

/-- C10: a buy-now request with quantity 0 for an active product with
positive stock and a valid body succeeds — no check requires the
quantity to be at least 1: it creates an order with total amount 0
holding one item of quantity 0, and leaves all product stock
unchanged. -/
theorem buyNow_zero_quantity_succeeds (st : StoreState) (pid : Nat)
    (p : Product) (ship : Shipping)
    (hp : buyNowLookup st.products pid = some p)
    (hstock : 0 < p.quantity) :
    ∃ o : Order,
      buyNow st (some pid) 0 true ship =
        ⟨⟨st.products, st.cart, st.orders ++ [o]⟩, .ok o⟩ ∧
      o.totalAmount = 0 ∧
      o.items = [{ productId := some p.pid, productName := p.name,
                   productSku := p.sku, quantity := 0,
                   unitPrice := p.discountedPrice }] := by
  have hin : p.isInStock = true := by
    simp [Product.isInStock, hstock]
  have hnolt : ¬ (p.quantity : Int) < 0 :=
    not_lt.mpr (Int.natCast_nonneg p.quantity)
  refine ⟨{ totalAmount := p.discountedPrice * ((0 : Int) : ℚ),
            shipping := ship,
            items := [{ productId := some p.pid, productName := p.name,
                        productSku := p.sku, quantity := 0,
                        unitPrice := p.discountedPrice }] }, ?_, by simp, rfl⟩
  simp only [buyNow, hp, hin, hnolt]
  have hq : ∀ q : Product, ({ q with quantity := q.quantity } : Product) = q :=
    fun q => by cases q; rfl
  simp [updateProduct, hq]

/-- C2 counterexample: at this buy-now input the operation does fail for
insufficient stock, but its message "Only 2 items available." does not
name the offending product ("Panadol"). -/
theorem buyNow_message_counterexample :
    (buyNow shortStockStore (some 3) 5 true wShip).response =
      .error "Only 2 items available." ∧
    ¬ "Panadol".toList <:+: "Only 2 items available.".toList := by
  exact ⟨rfl, by decide⟩

/-- C2 (amended): a checkout whose stock-validation loop finds a line
exceeding the stock of its product, and a buy-now whose requested
quantity exceeds the stock of the product, each fail with the insufficient-stock error
and leave the state completely unchanged (no order, no item, no stock
change, cart untouched); the checkout message names the offending
product, while the buy-now message only reports the available quantity. -/
theorem insufficient_stock_rejected (st : StoreState) (ship : Shipping)
    (bv : Bool) :
    (∀ lines lps lp, st.cart = some lines →
      resolveLines st.products lines = some lps →
      firstShortLine lps = some lp →
      checkout st true ship = ⟨st, .error (checkoutShortMsg lp.2)⟩ ∧
      lp.2.name.toList <:+: (checkoutShortMsg lp.2).toList) ∧
    (∀ pid qty p, buyNowLookup st.products pid = some p →
      (p.quantity : Int) < qty →
      buyNow st (some pid) qty bv ship = ⟨st, .error (buyNowShortMsg p)⟩) := by
  constructor
  · intro lines lps lp hcart hres hshort
    have hne : lines.isEmpty = false := by
      cases lines with
      | nil =>
        simp only [resolveLines, Option.some.injEq] at hres
        subst hres
        cases hshort
      | cons _ _ => rfl
    constructor
    · simp only [checkout, hcart, hne, Bool.false_eq_true, if_false,
        Bool.not_true, hres, hshort]
    · refine ⟨"\x27".toList, ("\x27 only has " ++ toString lp.2.quantity ++
        " items left.").toList, ?_⟩
      simp only [checkoutShortMsg, String.toList, String.data_append,
        List.append_assoc]
  · intro pid qty p hp hlt
    simp [buyNow, hp, hlt]

/-- C2 witness: a concrete buy-now for 5 units of a 2-unit product,
rejected through the theorem with the state unchanged. -/
theorem insufficient_stock_rejected_witness :
    buyNowLookup shortStockStore.products 3 = some shortStockProduct ∧
    ((shortStockProduct.quantity : Int) < 5) ∧
    buyNow shortStockStore (some 3) 5 true wShip =
      ⟨shortStockStore, .error (buyNowShortMsg shortStockProduct)⟩ :=
  ⟨rfl, by decide,
    (insufficient_stock_rejected shortStockStore wShip true).2 3 5
      shortStockProduct rfl (by decide)⟩

/-- C10 witness: a concrete quantity-0 buy-now against the 2-unit
product, evaluated through the theorem. -/
theorem buyNow_zero_quantity_succeeds_witness :
    buyNowLookup shortStockStore.products 3 = some shortStockProduct ∧
    0 < shortStockProduct.quantity ∧
    ∃ o : Order,
      buyNow shortStockStore (some 3) 0 true wShip =
        ⟨⟨shortStockStore.products, shortStockStore.cart,
          shortStockStore.orders ++ [o]⟩, .ok o⟩ ∧
      o.totalAmount = 0 ∧
      o.items = [{ productId := some shortStockProduct.pid,
                   productName := shortStockProduct.name,
                   productSku := shortStockProduct.sku, quantity := 0,
                   unitPrice := shortStockProduct.discountedPrice }] :=
  ⟨rfl, by decide,
    buyNow_zero_quantity_succeeds shortStockStore 3 shortStockProduct wShip
      rfl (by decide)⟩

/-- C3: verifying a code after its stored expiry has passed always
fails — a mismatching code with InvalidCode (state unchanged), a
matching code with Expired, deleting the pending-registration row but
leaving the user table untouched in the registration flow, and leaving
the whole state (user row and its stored code included) unchanged in the
password-reset flow.  In no branch is a user created, a token issued, or
the stored code cleared. -/
theorem verify_after_expiry_always_fails (st : AuthState) (now : Nat)
    (email otp : String) :
    (∀ pending, findPending st email = some pending →
      pending.otpExpiresAt < now →
      ((otp ≠ pending.otp →
          verifyOtp st now email otp = (st, .invalidCode)) ∧
       (otp = pending.otp →
          verifyOtp st now email otp =
            ({ st with pendings := deletePending st.pendings email },
              .expired)))) ∧
    (findPending st email = none →
      ∀ u t, findUser st email = some u → u.otpExpired = some t → t < now →
        ((u.otp ≠ some otp → verifyOtp st now email otp = (st, .invalidCode)) ∧
         (u.otp = some otp → verifyOtp st now email otp = (st, .expired)))) := by
  constructor
  · intro pending hp hexp
    constructor
    · intro hne
      have hb : (pending.otp != otp) = true := by
        simp [bne_iff_ne]
        exact fun h => hne h.symm
      simp only [verifyOtp, hp, hb, if_true]
    · intro heq
      subst heq
      simp only [verifyOtp, hp, bne_self_eq_false, Bool.false_eq_true,
        if_false, hexp, if_true]
  · intro hpn u t hu hte hexp
    constructor
    · intro hne
      have hb : (u.otp != some otp) = true := by simp [bne_iff_ne, hne]
      simp only [verifyOtp, hpn, hu, hb, if_true]
    · intro heq
      simp only [verifyOtp, hpn, hu, heq, bne_self_eq_false,
        Bool.false_eq_true, if_false, hte, hexp, if_true]

/-- C3 witness: concrete post-expiry verifications in the registration
flow — the wrong code gets InvalidCode, the right one gets Expired with
the pending row deleted. -/
theorem verify_after_expiry_witness :
    findPending ⟨[⟨"a@x.com", "A", "B", "pw", none, none, "123456", 100⟩], []⟩
        "a@x.com" =
      some ⟨"a@x.com", "A", "B", "pw", none, none, "123456", 100⟩ ∧
    (100 : Nat) < 500 ∧
    verifyOtp ⟨[⟨"a@x.com", "A", "B", "pw", none, none, "123456", 100⟩], []⟩
        500 "a@x.com" "123456" =
      (⟨deletePending [⟨"a@x.com", "A", "B", "pw", none, none, "123456", 100⟩]
          "a@x.com", []⟩, .expired) :=
  ⟨rfl, by decide,
    ((verify_after_expiry_always_fails
        ⟨[⟨"a@x.com", "A", "B", "pw", none, none, "123456", 100⟩], []⟩
        500 "a@x.com" "123456").1
      ⟨"a@x.com", "A", "B", "pw", none, none, "123456", 100⟩
      rfl (by decide)).2 rfl⟩

/-- C4 counterexample: when the fresh code drawn by the resend happens to
equal the stored one (`random.randint` may repeat a value), the old code
still verifies — here it completes the registration. -/
theorem resend_same_code_counterexample :
    pendingStale.otp = "123456" ∧
    ((verifyOtp (resendOtp ⟨[pendingStale], []⟩ 200 "a@x.com" "123456").1
        300 "a@x.com" "123456").2).isSuccess = true :=
  ⟨rfl, rfl⟩

/-- C4 (amended): reissuing a code for an email — by resend against a
pending registration or a user row, or by registering the same email
again — overwrites the stored code, so an old code that differs from the
fresh one no longer verifies: it fails with InvalidCode. -/
theorem reissue_invalidates_old_code (st : AuthState) (now now2 : Nat)
    (email old fresh firstName lastName password : String)
    (phone address : Option String) (hne : fresh ≠ old) :
    (∀ pending, findPending st email = some pending →
      ((verifyOtp (resendOtp st now email fresh).1 now2 email old).2 =
          .invalidCode ∧
       (verifyOtp (registration st now email firstName lastName password
            phone address fresh) now2 email old).2 = .invalidCode)) ∧
    (∀ u, findPending st email = none → findUser st email = some u →
      (verifyOtp (resendOtp st now email fresh).1 now2 email old).2 =
        .invalidCode) := by
  have hbne : (fresh != old) = true := by simp [bne_iff_ne, hne]
  constructor
  · intro pending hp
    constructor
    · have hfind : ((resendOtp st now email fresh).1).pendings.find?
          (fun p => p.email == email) =
          some { pending with otp := fresh, otpExpiresAt := now + 300 } := by
        simp only [resendOtp, hp]
        exact find?_update_of_found _
          (fun p => { p with otp := fresh, otpExpiresAt := now + 300 })
          (fun a h => h) hp
      simp only [verifyOtp, findPending, hfind, hbne, if_true]
    · have hfind : (registration st now email firstName lastName password
            phone address fresh).pendings.find? (fun p => p.email == email) =
          some { email := email, firstName := firstName, lastName := lastName,
                 password := password, phone := phone, address := address,
                 otp := fresh, otpExpiresAt := now + 300 } := by
        simp only [registration, hp, Option.isSome_some, if_true]
        exact find?_update_of_found _
          (fun _ => { email := email, firstName := firstName,
                      lastName := lastName, password := password,
                      phone := phone, address := address, otp := fresh,
                      otpExpiresAt := now + 300 })
          (fun a _ => by simp) hp
      simp only [verifyOtp, findPending, hfind, hbne, if_true]
  · intro u hpn hu
    have hq : ∀ v : UserRec,
        (v.email == email) = true →
        (((usersSave now { v with otp := some fresh }).email == email) = true) := by
      intro v hv
      rw [usersSave_email]
      exact hv
    have hfind : ((resendOtp st now email fresh).1).users.find?
        (fun v => v.email == email) =
        some (usersSave now { u with otp := some fresh }) := by
      simp only [resendOtp, hpn, hu]
      exact find?_update_of_found _ _ hq hu
    have hpend : ((resendOtp st now email fresh).1).pendings.find?
        (fun p => p.email == email) = none := by
      simp only [resendOtp, hpn, hu]
      exact hpn
    have hotp : (usersSave now { u with otp := some fresh }).otp = some fresh :=
      usersSave_otp now _
    have hbne2 : ((usersSave now { u with otp := some fresh }).otp
        != some old) = true := by
      rw [hotp]
      simp [bne_iff_ne, hne]
    simp only [verifyOtp, findPending, findUser, hpend, hfind, hbne2, if_true]

/-- C4 witness: concrete resend with a different fresh code, after which
the old code is rejected as invalid. -/
theorem reissue_invalidates_old_code_witness :
    ("654321" : String) ≠ "123456" ∧
    findPending ⟨[pendingStale], []⟩ "a@x.com" = some pendingStale ∧
    ((verifyOtp (resendOtp ⟨[pendingStale], []⟩ 200 "a@x.com" "654321").1
        300 "a@x.com" "123456").2) = .invalidCode :=
  ⟨by decide, rfl,
    ((reissue_invalidates_old_code ⟨[pendingStale], []⟩ 200 300 "a@x.com"
        "123456" "654321" "A" "B" "pw" none none (by decide)).1
      pendingStale rfl).1⟩

/-- C5: for an existing user, reset-password succeeds — replacing the
stored hash with the hash of the supplied password — exactly when the
stored one-time code is null; with a non-null code it fails with the
verification-required error and changes nothing, and with an unknown
email it fails with a not-found error. -/
theorem reset_password_null_otp_guard (st : AuthState) (now : Nat)
    (email newPw : String) :
    (∀ u, findUser st email = some u →
      (((resetPassword st now email newPw).2 = .ok) ↔ u.otp = none) ∧
      (u.otp = none →
        findUser (resetPassword st now email newPw).1 email =
          some { u with passwordHash := hashPassword newPw }) ∧
      (u.otp ≠ none →
        resetPassword st now email newPw = (st, .verificationRequired))) ∧
    (findUser st email = none →
      resetPassword st now email newPw = (st, .userNotFound)) := by
  constructor
  · intro u hu
    by_cases hopt : u.otp = none
    · have hnotsome : u.otp.isSome = false := by simp [hopt]
      have hsave : usersSave now { u with passwordHash := hashPassword newPw } =
          { u with passwordHash := hashPassword newPw } := by
        unfold usersSave
        rw [if_neg]
        simp [otpTruthy, hopt]
      have hres : resetPassword st now email newPw =
          ({ st with users :=
              (updateUser st.users email
                (fun v => usersSave now
                  { v with passwordHash := hashPassword newPw })) }, .ok) := by
        simp only [resetPassword, hu, hnotsome, Bool.false_eq_true, if_false]
      have hfind : findUser (resetPassword st now email newPw).1 email =
          some { u with passwordHash := hashPassword newPw } := by
        rw [hres]
        unfold findUser updateUser
        rw [find?_update_of_found _
          (fun v => usersSave now { v with passwordHash := hashPassword newPw })
          (fun v hv => by rw [usersSave_email]; exact hv) hu]
        rw [hsave]
      refine ⟨?_, fun _ => hfind, fun h => absurd hopt h⟩
      rw [hres]
      simp [hopt]
    · have hsome : u.otp.isSome = true := Option.ne_none_iff_isSome.mp hopt
      have hres : resetPassword st now email newPw =
          (st, .verificationRequired) := by
        simp only [resetPassword, hu, hsome, if_true]
      refine ⟨?_, fun h => absurd h hopt, fun _ => hres⟩
      rw [hres]
      simp only [iff_iff_implies_and_implies]
      constructor
      · intro h; cases h
      · intro h; exact absurd h hopt
  · intro hnone
    simp only [resetPassword, hnone]

/-- C5 witness: concrete reset for a user whose code is null — it
succeeds and stores the hash of the new password. -/
theorem reset_password_null_otp_guard_witness :
    findUser ⟨[], [clearedUser]⟩ "u@x.com" = some clearedUser ∧
    clearedUser.otp = none ∧
    findUser (resetPassword ⟨[], [clearedUser]⟩ 900 "u@x.com" "newpw").1
        "u@x.com" =
      some { clearedUser with passwordHash := hashPassword "newpw" } :=
  ⟨rfl, rfl,
    ((reset_password_null_otp_guard ⟨[], [clearedUser]⟩ 900 "u@x.com"
        "newpw").1 clearedUser rfl).2.1 rfl⟩

/-- C8: the reset-password guard checks only that the stored code is
null — any user with a null code, including one freshly created by a
successful registration verification (whose code is null from creation,
no reset ever initiated), gets the password replaced.  The second part
runs that end-to-end: a successful registration verification yields a
user whose code is null, and an immediate reset-password then succeeds. -/
theorem reset_password_only_checks_null_otp (st : AuthState)
    (now now1 : Nat) (email code newPw : String) :
    (∀ u, findUser st email = some u → u.otp = none →
      (resetPassword st now email newPw).2 = .ok ∧
      findUser (resetPassword st now email newPw).1 email =
        some { u with passwordHash := hashPassword newPw }) ∧
    (∀ pending, findPending st email = some pending →
      findUser st email = none → code = pending.otp →
      ¬ pending.otpExpiresAt < now →
      ∃ newUser, (verifyOtp st now email code).2 = .registered newUser true ∧
        newUser.otp = none ∧
        (resetPassword (verifyOtp st now email code).1 now1 email newPw).2 =
          .ok) := by
  have hcore : ∀ (st2 : AuthState) (now2 : Nat) (u : UserRec),
      findUser st2 email = some u → u.otp = none →
      (resetPassword st2 now2 email newPw).2 = .ok ∧
      findUser (resetPassword st2 now2 email newPw).1 email =
        some { u with passwordHash := hashPassword newPw } := by
    intro st2 now2 u hu hopt
    have hnotsome : u.otp.isSome = false := by simp [hopt]
    have hsave : usersSave now2 { u with passwordHash := hashPassword newPw } =
        { u with passwordHash := hashPassword newPw } := by
      unfold usersSave
      rw [if_neg]
      simp [otpTruthy, hopt]
    have hres : resetPassword st2 now2 email newPw =
        ({ st2 with users :=
            (updateUser st2.users email
              (fun v => usersSave now2
                { v with passwordHash := hashPassword newPw })) }, .ok) := by
      simp only [resetPassword, hu, hnotsome, Bool.false_eq_true, if_false]
    refine ⟨by rw [hres], ?_⟩
    rw [hres]
    unfold findUser updateUser
    rw [find?_update_of_found _
      (fun v => usersSave now2 { v with passwordHash := hashPassword newPw })
      (fun v hv => by rw [usersSave_email]; exact hv) hu]
    rw [hsave]
  constructor
  · exact hcore st now
  · intro pending hp hnouser hcode hexp
    have hbne : (pending.otp != code) = false := by
      simp [bne_iff_ne, hcode]
    refine ⟨{ email := pending.email, firstName := pending.firstName,
              lastName := pending.lastName,
              passwordHash := hashPassword pending.password,
              phone := pending.phone, address := pending.address,
              otp := none, otpExpired := none, isActive := true },
      ?_, rfl, ?_⟩
    · simp only [verifyOtp, hp, hbne, Bool.false_eq_true, if_false, hexp]
    · have hemail : pending.email = email := by
        have := List.find?_some hp
        simpa using this
      have hstate : (verifyOtp st now email code).1 =
          ⟨deletePending st.pendings email, st.users ++
            [{ email := pending.email, firstName := pending.firstName,
               lastName := pending.lastName,
               passwordHash := hashPassword pending.password,
               phone := pending.phone, address := pending.address,
               otp := none, otpExpired := none, isActive := true }]⟩ := by
        simp only [verifyOtp, hp, hbne, Bool.false_eq_true, if_false, hexp]
      have hfind : findUser (verifyOtp st now email code).1 email =
          some { email := pending.email, firstName := pending.firstName,
                 lastName := pending.lastName,
                 passwordHash := hashPassword pending.password,
                 phone := pending.phone, address := pending.address,
                 otp := none, otpExpired := none, isActive := true } := by
        rw [hstate]
        unfold findUser
        rw [List.find?_append]
        unfold findUser at hnouser
        rw [hnouser]
        simp [hemail]
      exact (hcore (verifyOtp st now email code).1 now1 _ hfind rfl).1

/-- C8 witness: the end-to-end path at concrete values — verify a valid
pending registration, then reset the password of the new user at once. -/
theorem reset_password_only_checks_null_otp_witness :
    findPending ⟨[pendingStale], []⟩ "a@x.com" = some pendingStale ∧
    findUser ⟨[pendingStale], []⟩ "a@x.com" = none ∧
    ("123456" : String) = pendingStale.otp ∧
    ¬ pendingStale.otpExpiresAt < 50 ∧
    ∃ newUser,
      (verifyOtp ⟨[pendingStale], []⟩ 50 "a@x.com" "123456").2 =
        .registered newUser true ∧
      newUser.otp = none ∧
      (resetPassword (verifyOtp ⟨[pendingStale], []⟩ 50 "a@x.com" "123456").1
          60 "a@x.com" "npw").2 = .ok :=
  ⟨rfl, rfl, rfl, by decide,
    (reset_password_only_checks_null_otp ⟨[pendingStale], []⟩ 50 60 "a@x.com"
        "123456" "npw").2 pendingStale rfl rfl rfl (by decide)⟩

/-- C9 counterexample: `Users.save` tests Python truthiness, not
non-nullness — a row whose code is the blank string is non-null, yet a
save at time 1000 leaves its expiry at 100 instead of resetting it. -/
theorem users_save_blank_otp_counterexample :
    blankOtpUser.otp ≠ none ∧
    (usersSave 1000 blankOtpUser).otpExpired = some 100 ∧
    (usersSave 1000 blankOtpUser).otpExpired ≠ some (1000 + 300) :=
  ⟨by decide, rfl, by decide⟩

/-- C9 (amended): every save of a user row whose code is non-null and
non-blank resets the expiry to 5 minutes after the save (rows with a
falsy code are saved unchanged); consequently a password change or a
profile update performed while a real code is pending pushes the code
expiry to 5 minutes after that unrelated operation. -/
theorem users_save_resets_expiry_when_truthy (now : Nat) (u : UserRec) :
    (∀ c, u.otp = some c → c ≠ "" →
      (usersSave now u).otpExpired = some (now + 300)) ∧
    (otpTruthy u.otp = false → usersSave now u = u) ∧
    (∀ st email newPw c, findUser st email = some u → u.otp = some c →
      c ≠ "" →
      findUser (changePassword st now email newPw) email =
        some { u with passwordHash := hashPassword newPw,
                      otpExpired := some (now + 300) }) ∧
    (∀ st email pt c, findUser st email = some u → u.otp = some c →
      c ≠ "" →
      ∃ v, findUser (updateProfile st now email pt) email = some v ∧
        v.otpExpired = some (now + 300)) := by
  have htruthy : ∀ c : String, c ≠ "" → otpTruthy (some c) = true := by
    intro c hc
    simp [otpTruthy, hc]
  refine ⟨?_, ?_, ?_, ?_⟩
  · intro c hc hne
    unfold usersSave
    rw [hc, if_pos (htruthy c hne)]
  · intro hfalse
    unfold usersSave
    rw [if_neg]
    simp [hfalse]
  · intro st email newPw c hu hc hne
    unfold changePassword findUser updateUser
    rw [find?_update_of_found _
      (fun v => usersSave now { v with passwordHash := hashPassword newPw })
      (fun v hv => by rw [usersSave_email]; exact hv) hu]
    unfold usersSave
    rw [if_pos (by simpa [hc] using htruthy c hne)]
  · intro st email pt c hu hc hne
    refine ⟨usersSave now (applyPatch pt u), ?_, ?_⟩
    · unfold updateProfile findUser updateUser
      rw [find?_update_of_found _
        (fun v => usersSave now (applyPatch pt v))
        (fun v hv => by rw [usersSave_email]; simpa [applyPatch] using hv) hu]
    · unfold usersSave
      rw [if_pos (by simpa [applyPatch, hc] using htruthy c hne)]

/-- C9 witness: a concrete password change at time 1000 while the code
issued with expiry 400 is pending pushes the expiry to 1300. -/
theorem users_save_resets_expiry_witness :
    findUser ⟨[], [pendingOtpUser]⟩ "p@x.com" = some pendingOtpUser ∧
    pendingOtpUser.otp = some "555555" ∧
    ("555555" : String) ≠ "" ∧
    findUser (changePassword ⟨[], [pendingOtpUser]⟩ 1000 "p@x.com" "npw")
        "p@x.com" =
      some { pendingOtpUser with passwordHash := hashPassword "npw",
                                 otpExpired := some (1000 + 300) } :=
  ⟨rfl, rfl, by decide,
    (users_save_resets_expiry_when_truthy 1000 pendingOtpUser).2.2.1
      ⟨[], [pendingOtpUser]⟩ "p@x.com" "npw" "555555" rfl rfl (by decide)⟩

/-- C1: for a user whose cart is non-empty, references distinct existing
products (what the unique and foreign keys of the schema guarantee) and fits
in stock, a checkout with a valid body succeeds: it appends one order
whose total is the sum over cart lines of discounted price times
quantity, with exactly one snapshot item per line copying name, SKU and
discounted unit price, decrements the stock of each referenced product
by the quantity of its line, and clears the cart; with an absent or empty cart
checkout fails with the empty-cart error and the state is unchanged, so
no order is created. -/
theorem checkout_stock_accounting (st : StoreState) (ship : Shipping)
    (bv : Bool) :
    (∀ lines lps, st.cart = some lines → lines ≠ [] →
      resolveLines st.products lines = some lps →
      (∀ lp ∈ lps, lp.1.quantity ≤ lp.2.quantity) →
      List.Pairwise (fun a b => a.productId ≠ b.productId) lines →
      checkout st true ship =
        ⟨⟨claimDecrement lines st.products, some [],
            st.orders ++ [claimOrder st.products lines ship]⟩,
          .ok (claimOrder st.products lines ship)⟩) ∧
    ((st.cart = none ∨ st.cart = some []) →
      checkout st bv ship = ⟨st, .error "Your cart is empty."⟩) := by
  constructor
  · intro lines lps hcart hne hres hstock hpw
    obtain ⟨hfst, hfind⟩ := resolveLines_spec st.products hres
    obtain ⟨htot, hsnap⟩ := resolve_total_snapshot st.products hres
    have hpid : ∀ lp ∈ lps, lp.2.pid = lp.1.productId :=
      fun lp hlp => findProduct_pid (hfind lp hlp)
    have hdec : decrementStock lps st.products =
        claimDecrement lines st.products := by
      rw [decrementStock_by_lines lps st.products hpid, hfst,
        foldl_update_eq_claimDecrement lines st.products hpw]
    have hempty : lines.isEmpty = false := by
      cases lines with
      | nil => exact absurd rfl hne
      | cons _ _ => rfl
    have hshort : firstShortLine lps = none := by
      unfold firstShortLine
      rw [List.find?_eq_none]
      intro lp hlp
      simp only [decide_eq_true_eq]
      exact Nat.not_lt.mpr (hstock lp hlp)
    simp only [checkout, hcart, hempty, Bool.false_eq_true, if_false,
      Bool.not_true, hres, hshort, htot, hsnap, hdec, claimOrder]
  · intro h
    rcases h with h | h
    · simp [checkout, h]
    · simp [checkout, h]

/-- C1 witness: a concrete two-line checkout with sufficient stock,
evaluated through the theorem. -/
theorem checkout_stock_accounting_witness :
    wStoreC1.cart = some [{ productId := 1, quantity := 2 },
      { productId := 2, quantity := 1 }] ∧
    ([{ productId := 1, quantity := 2 },
      { productId := 2, quantity := 1 }] : List CartLine) ≠ [] ∧
    resolveLines wStoreC1.products [{ productId := 1, quantity := 2 },
      { productId := 2, quantity := 1 }] = some wLpsC1 ∧
    (∀ lp ∈ wLpsC1, lp.1.quantity ≤ lp.2.quantity) ∧
    List.Pairwise (fun a b => a.productId ≠ b.productId)
      ([{ productId := 1, quantity := 2 },
        { productId := 2, quantity := 1 }] : List CartLine) ∧
    checkout wStoreC1 true wShip =
      ⟨⟨claimDecrement [{ productId := 1, quantity := 2 },
          { productId := 2, quantity := 1 }] wStoreC1.products, some [],
          wStoreC1.orders ++
            [claimOrder wStoreC1.products [{ productId := 1, quantity := 2 },
              { productId := 2, quantity := 1 }] wShip]⟩,
        .ok (claimOrder wStoreC1.products [{ productId := 1, quantity := 2 },
          { productId := 2, quantity := 1 }] wShip)⟩ :=
  ⟨rfl, by decide, rfl, by decide, by decide,
    (checkout_stock_accounting wStoreC1 wShip true).1
      [{ productId := 1, quantity := 2 }, { productId := 2, quantity := 1 }]
      wLpsC1 rfl (by decide) rfl (by decide) (by decide)⟩

end Medistore
